import Mathlib

/-!
Verification of the timezone-aware date normalization and selection logic of
the react-datepicker repository.

The repository ships its implementation as `date_utils` (the zoned-time
converter: `toZonedTime`, `fromZonedTime`, `formatInTimeZone`, `nowInTimeZone`,
the `date-fns-tz` availability cache) plus the DatePicker selection controller
and the `year_dropdown` component; only their test suites are present under
`src/`.  The definitions below are therefore modelled from the specification
(`spec.md`), section by section, and the tests' concrete expectations are used
as sanity points.  Instants are milliseconds since the Unix epoch, as `Int`
(the JavaScript `Date` value).  Civil-calendar arithmetic follows the standard
days-from-civil / civil-from-days algorithms, with floor division.
-/

namespace DatePickerTZ

/-- Milliseconds in one minute. -/
def msPerMinute : Int := 60000

/-- Milliseconds in one hour. -/
def msPerHour : Int := 3600000

/-- Milliseconds in one civil day. -/
def msPerDay : Int := 86400000

/-- Day count since 1970-01-01 for a proleptic-Gregorian civil date
(y, m, d), m in 1..12.  Standard civil-calendar algorithm, floor
division throughout. -/
def daysFromCivil (y m d : Int) : Int :=
  let y' := y - (if m ≤ 2 then 1 else 0)
  let era := Int.fdiv y' 400
  let yoe := y' - era * 400
  let mp := Int.emod (m + 9) 12
  let doy := Int.fdiv (153 * mp + 2) 5 + d - 1
  let doe := yoe * 365 + Int.fdiv yoe 4 - Int.fdiv yoe 100 + doy
  era * 146097 + doe - 719468

/-- Inverse of `daysFromCivil`: the civil date (y, m, d) of a day count
since 1970-01-01. -/
def civilFromDays (z : Int) : Int × Int × Int :=
  let z' := z + 719468
  let era := Int.fdiv z' 146097
  let doe := z' - era * 146097
  let yoe := Int.fdiv (doe - Int.fdiv doe 1460 + Int.fdiv doe 36524 - Int.fdiv doe 146096) 365
  let y := yoe + era * 400
  let doy := doe - (365 * yoe + Int.fdiv yoe 4 - Int.fdiv yoe 100)
  let mp := Int.fdiv (5 * doy + 2) 153
  let d := doy - Int.fdiv (153 * mp + 2) 5 + 1
  let m := mp + (if mp < 10 then 3 else -9)
  (y + (if m ≤ 2 then 1 else 0), m, d)

/-- Timestamp (ms since epoch) of a civil date-time read as UTC. -/
def mkTs (y m d h mi : Int) : Int :=
  daysFromCivil y m d * msPerDay + h * msPerHour + mi * msPerMinute

/-- Civil day number containing a timestamp (floor). -/
def dayNumOf (t : Int) : Int := Int.fdiv t msPerDay

/-- Milliseconds elapsed since the start of the civil day of `t`. -/
def timeOfDayOf (t : Int) : Int := Int.emod t msPerDay

/-- Hour-of-day (0..23) of a timestamp read as wall-clock fields. -/
def hourOf (t : Int) : Int := Int.fdiv (timeOfDayOf t) msPerHour

/-- Minute-of-hour (0..59) of a timestamp read as wall-clock fields. -/
def minuteOf (t : Int) : Int := Int.fdiv (Int.emod t msPerHour) msPerMinute

/-- Year of the civil date of a timestamp. -/
def yearOf (t : Int) : Int := (civilFromDays (dayNumOf t)).1

/-- Month (1..12) of the civil date of a timestamp. -/
def monthOf (t : Int) : Int := (civilFromDays (dayNumOf t)).2.1

/-- Day-of-month of the civil date of a timestamp. -/
def dayOf (t : Int) : Int := (civilFromDays (dayNumOf t)).2.2

/-- Modelled from the spec: the repository's zone database is the external
`date-fns-tz`/IANA database, absent from `src/`.  A civil timezone is "a named
region with a defined (possibly DST-varying) UTC offset history" (glossary);
we model the offset history of each zone the test suite exercises as a
standard-time offset, a DST offset, and the list of DST intervals
(half-open, in UTC ms) covering the years the claims touch. -/
structure ZoneRules where
  stdOffset : Int
  dstOffset : Int
  dstIntervals : List (Int × Int)
deriving Repr, DecidableEq

/-- UTC offset (ms) of a zone at a given absolute instant. -/
def offsetAt (z : ZoneRules) (i : Int) : Int :=
  if z.dstIntervals.any (fun p => decide (p.1 ≤ i) && decide (i < p.2)) then
    z.dstOffset
  else
    z.stdOffset

/-- America/New_York: UTC-5 standard, UTC-4 daylight; 2024 and 2025 DST
intervals from the IANA database. -/
def nyRules : ZoneRules :=
  { stdOffset := -5 * msPerHour
    dstOffset := -4 * msPerHour
    dstIntervals :=
      [(mkTs 2024 3 10 7 0, mkTs 2024 11 3 6 0),
       (mkTs 2025 3 9 7 0, mkTs 2025 11 2 6 0)] }

/-- America/Los_Angeles: UTC-8 standard, UTC-7 daylight; 2024 and 2025 DST
intervals. -/
def laRules : ZoneRules :=
  { stdOffset := -8 * msPerHour
    dstOffset := -7 * msPerHour
    dstIntervals :=
      [(mkTs 2024 3 10 10 0, mkTs 2024 11 3 9 0),
       (mkTs 2025 3 9 10 0, mkTs 2025 11 2 9 0)] }

/-- Europe/London: UTC standard, UTC+1 British Summer Time; 2024 and 2025
intervals. -/
def londonRules : ZoneRules :=
  { stdOffset := 0
    dstOffset := 1 * msPerHour
    dstIntervals :=
      [(mkTs 2024 3 31 1 0, mkTs 2024 10 27 1 0),
       (mkTs 2025 3 30 1 0, mkTs 2025 10 26 1 0)] }

/-- Asia/Tokyo: fixed UTC+9, no DST. -/
def tokyoRules : ZoneRules :=
  { stdOffset := 9 * msPerHour, dstOffset := 9 * msPerHour, dstIntervals := [] }

/-- Pacific/Kiritimati: fixed UTC+14, no DST. -/
def kiritimatiRules : ZoneRules :=
  { stdOffset := 14 * msPerHour, dstOffset := 14 * msPerHour, dstIntervals := [] }

/-- UTC: fixed zero offset. -/
def utcRules : ZoneRules :=
  { stdOffset := 0, dstOffset := 0, dstIntervals := [] }

/-- Zone database keyed by IANA identifier; unknown identifiers yield `none`
(the spec's error taxonomy treats them as "unavailable for that call"). -/
def zoneOf (s : String) : Option ZoneRules :=
  if s = "UTC" then some utcRules
  else if s = "America/New_York" then some nyRules
  else if s = "America/Los_Angeles" then some laRules
  else if s = "Europe/London" then some londonRules
  else if s = "Asia/Tokyo" then some tokyoRules
  else if s = "Pacific/Kiritimati" then some kiritimatiRules
  else none

/-- Modelled from the spec: `toZonedTime` of `date_utils` (implementation not
under `src/`).  Returns the instant unchanged when the timezone identifier is
absent or empty (falsy), or rejected by the zone database; otherwise returns
the value whose wall-clock fields reflect civil time in the zone at that
instant, i.e. the instant shifted by the zone's UTC offset there. -/
def toZonedTime (i : Int) (tz : Option String) : Int :=
  match tz with
  | none => i
  | some s =>
    if s = "" then i
    else
      match zoneOf s with
      | none => i
      | some z => i + offsetAt z i

/-- Modelled from the spec: `fromZonedTime` of `date_utils` (implementation
not under `src/`).  Treats the wall-clock fields of the argument as civil time
in the zone and returns the corresponding absolute instant; identity when the
identifier is absent, empty, or rejected.  The offset that produced a wall
reading is inferred from the wall reading itself: the DST offset when that
interpretation is consistent with the zone's intervals, the standard offset
otherwise (DST fall-back makes some wall readings ambiguous; this resolves
them to the earlier, DST, instant). -/
def fromZonedTime (w : Int) (tz : Option String) : Int :=
  match tz with
  | none => w
  | some s =>
    if s = "" then w
    else
      match zoneOf s with
      | none => w
      | some z =>
        if offsetAt z (w - z.dstOffset) = z.dstOffset then w - z.dstOffset
        else w - z.stdOffset

/-- Decimal string of a nonnegative field, left-padded with zeros to two
digits. -/
def pad2 (n : Int) : String :=
  if n < 10 then "0" ++ toString n.toNat else toString n.toNat

/-- Decimal string of a year, left-padded with zeros to four digits. -/
def pad4 (n : Int) : String :=
  if n < 10 then "000" ++ toString n.toNat
  else if n < 100 then "00" ++ toString n.toNat
  else if n < 1000 then "0" ++ toString n.toNat
  else toString n.toNat

/-- Group consecutive equal characters of a pattern into (char, run length)
pairs. -/
def splitRuns : List Char → List (Char × Nat)
  | [] => []
  | c :: rest =>
    match splitRuns rest with
    | (c', n) :: tail => if c = c' then (c, n + 1) :: tail else (c, 1) :: (c', n) :: tail
    | [] => [(c, 1)]

/-- Expansion of one pattern token run against the wall-clock fields of a
timestamp: `y` year, `M` month, `d` day-of-month, `H` hour (00-23),
`m` minute; any other character is literal text. -/
def formatRun (w : Int) (c : Char) (len : Nat) : String :=
  if c = 'y' then pad4 (yearOf w)
  else if c = 'M' then pad2 (monthOf w)
  else if c = 'd' then pad2 (dayOf w)
  else if c = 'H' then pad2 (hourOf w)
  else if c = 'm' then pad2 (minuteOf w)
  else String.mk (List.replicate len c)

/-- Modelled from the spec: the date-pattern mini-language of `formatInZone`
(section 4.1), restricted to the year/month/day/hour/minute tokens and
literal text that the test suite exercises (`yyyy-MM-dd`, `HH:mm`). -/
def formatPattern (pat : String) (w : Int) : String :=
  String.join ((splitRuns pat.data).map (fun p => formatRun w p.1 p.2))

/-- Modelled from the spec: `formatInTimeZone` of `date_utils` (implementation
not under `src/`).  With no (or an empty, or an unknown) timezone the instant
is formatted in the ambient zone — modelled as UTC, matching the test
environment — with no conversion; otherwise the instant is zoned first and the
zoned wall-clock fields are formatted. -/
def formatInTimeZone (i : Int) (pat : String) (tz : Option String) : String :=
  formatPattern pat (toZonedTime i tz)

/-! ### Selection controller

Modelled from the spec, section 4.2: the DatePicker selection controller is
not under `src/` (only its test suite is).  The controller mediates between
zoned calendar days shown in the grid and the absolute instants exchanged
with the host. -/

/-- Zoned calendar-day number an instant displays/highlights as. -/
def calendarDayOfZoned (i : Int) (tz : Option String) : Int :=
  dayNumOf (toZonedTime i tz)

/-- Modelled from the spec: whether the grid cell for zoned calendar day
`day` is highlighted for a single selection (section 4.2: the highlighted day
is `toZoned(selected, tz)`'s calendar day). -/
def isDayHighlighted (selected : Option Int) (tz : Option String) (day : Int) : Bool :=
  match selected with
  | none => false
  | some s => decide (calendarDayOfZoned s tz = day)

/-- Modelled from the spec: activating the grid cell for zoned calendar day
`day` (section 4.2): the controller builds a zoned moment for that day
preserving the currently displayed time-of-day (midnight when nothing is
selected), inverts it via `fromZonedTime`, and emits the resulting instant. -/
def selectDayEmit (selected : Option Int) (tz : Option String) (day : Int) : Int :=
  let tod :=
    match selected with
    | some s => timeOfDayOf (toZonedTime s tz)
    | none => 0
  fromZonedTime (day * msPerDay + tod) tz

/-- Replace the time-of-day of a wall-clock value, keeping its calendar day. -/
def setTimeOfDay (w h mi : Int) : Int :=
  dayNumOf w * msPerDay + h * msPerHour + mi * msPerMinute

/-- Modelled from the spec: a time-of-day edit on the start endpoint in range
mode (section 4.2): `fromZoned` is applied to the edited endpoint only, the
end instant is passed through untouched, and the emitted value is the ordered
pair; a null endpoint stays null. -/
def editStartTime (s e : Option Int) (tz : Option String) (h mi : Int) :
    Option Int × Option Int :=
  (s.map (fun x => fromZonedTime (setTimeOfDay (toZonedTime x tz) h mi) tz), e)

/-- Modelled from the spec: a time-of-day edit on the end endpoint in range
mode; symmetric to `editStartTime`. -/
def editEndTime (s e : Option Int) (tz : Option String) (h mi : Int) :
    Option Int × Option Int :=
  (s, e.map (fun x => fromZonedTime (setTimeOfDay (toZonedTime x tz) h mi) tz))

/-- Modelled from the spec: initial display normalization of a range
(section 3: invariant start ≤ end when both present; section 4.2: the ordering
invariant is enforced on initial display normalization only). -/
def normalizeDisplayRange (s e : Option Int) : Option Int × Option Int :=
  match s, e with
  | some a, some b => if b < a then (some b, some a) else (some a, some b)
  | s, e => (s, e)

/-- Null-lifted `toZonedTime`: conversions pass absent instants through
unchanged (spec section 7). -/
def toZonedOpt (i : Option Int) (tz : Option String) : Option Int :=
  i.map (fun x => toZonedTime x tz)

/-- Null-lifted `fromZonedTime`. -/
def fromZonedOpt (w : Option Int) (tz : Option String) : Option Int :=
  w.map (fun x => fromZonedTime x tz)

/-- Modelled from the spec: clicking zoned calendar day `day` in
multiple-selection mode (section 4.2): when some selected instant already
collapses to that zoned day, every instant whose zoned calendar day matches is
removed (equality is by zoned day, not exact instant); otherwise the day is
inverted via `fromZonedTime` (at wall-clock midnight) and added. -/
def toggleDay (sel : List Int) (tz : Option String) (day : Int) : List Int :=
  if sel.any (fun i => decide (calendarDayOfZoned i tz = day)) then
    sel.filter (fun i => decide (calendarDayOfZoned i tz ≠ day))
  else
    sel ++ [fromZonedTime (day * msPerDay) tz]

/-! ### Degraded mode

Modelled from the spec, sections 4.1, 6, 7 and 9: the `date-fns-tz`
availability cache of `date_utils` is not under `src/`.  Availability and the
development-mode flag are explicit injected configuration; the once-per-process
memo is explicit state threaded through every operation; diagnostics are
collected as an output list. -/

/-- Process environment: whether the optional `date-fns-tz` dependency is
available, and whether the development-mode flag is set. -/
structure TzEnv where
  available : Bool
  devMode : Bool
deriving Repr, DecidableEq

/-- Process-wide memo: whether the missing-dependency diagnostic has already
been produced. -/
structure TzState where
  warned : Bool
deriving Repr, DecidableEq

/-- Diagnostic emitted when `date-fns-tz` is missing (spec section 6: a single
human-readable warning string containing the token "date-fns-tz"). -/
def warnMsg : String :=
  "react-datepicker: the timeZone prop requires the optional date-fns-tz dependency, which is not installed. Falling back to the default timezone behavior."

/-- Whether the first character list occurs at the head of the second. -/
def leadsChars : List Char → List Char → Bool
  | [], _ => true
  | _ :: _, [] => false
  | n :: ns, h :: hs => n = h && leadsChars ns hs

/-- Whether a character list contains another as a contiguous run. -/
def subListOf (needle : List Char) : List Char → Bool
  | [] => needle.isEmpty
  | c :: rest => leadsChars needle (c :: rest) || subListOf needle rest

/-- Whether string `t` occurs as a substring of `s`. -/
def containsToken (s t : String) : Bool := subListOf t.data s.data

/-- Whether an operation actually requests zoning (a present, non-empty
timezone identifier); only such calls probe the optional dependency. -/
def hasTz : Option String → Bool
  | none => false
  | some s => decide (s ≠ "")

/-- Probe the optional dependency: when it is unavailable the memo flag is
set and the diagnostic is emitted if this is the first detection and the
development-mode flag is on (spec section 4.1: emitted once per process,
suppressed outside development mode). -/
def probeWarn (env : TzEnv) (st : TzState) : TzState × List String :=
  if env.available then (st, [])
  else if env.devMode && !st.warned then (⟨true⟩, [warnMsg])
  else (⟨true⟩, [])

/-- Modelled from the spec: `toZonedTime` with the availability cache made
explicit.  Identity on the instant when no zoning is requested; delegates to
the pure converter when the dependency is available; identity plus diagnostic
bookkeeping when it is not. -/
def toZonedTimeD (env : TzEnv) (st : TzState) (i : Int) (tz : Option String) :
    Int × TzState × List String :=
  if hasTz tz then
    if env.available then (toZonedTime i tz, st, [])
    else
      let (st', ws) := probeWarn env st
      (i, st', ws)
  else (i, st, [])

/-- Modelled from the spec: `fromZonedTime` with the availability cache made
explicit. -/
def fromZonedTimeD (env : TzEnv) (st : TzState) (w : Int) (tz : Option String) :
    Int × TzState × List String :=
  if hasTz tz then
    if env.available then (fromZonedTime w tz, st, [])
    else
      let (st', ws) := probeWarn env st
      (w, st', ws)
  else (w, st, [])

/-- Modelled from the spec: `formatInTimeZone` with the availability cache
made explicit; with the dependency unavailable it falls back to ambient-zone
formatting of the unzoned instant. -/
def formatInTimeZoneD (env : TzEnv) (st : TzState) (i : Int) (pat : String)
    (tz : Option String) : String × TzState × List String :=
  if hasTz tz then
    if env.available then (formatInTimeZone i pat tz, st, [])
    else
      let (st', ws) := probeWarn env st
      (formatPattern pat i, st', ws)
  else (formatPattern pat i, st, [])

/-- One call into the zoned-time converter, for reasoning about a whole
process history. -/
inductive TzOp where
  | toZ (i : Int) (tz : Option String)
  | fromZ (w : Int) (tz : Option String)
  | fmt (i : Int) (pat : String) (tz : Option String)
deriving Repr, DecidableEq

/-- Whether an operation requests zoning. -/
def opHasTz : TzOp → Bool
  | .toZ _ tz => hasTz tz
  | .fromZ _ tz => hasTz tz
  | .fmt _ _ tz => hasTz tz

/-- State transition and diagnostics of one converter call. -/
def runOp (env : TzEnv) (st : TzState) : TzOp → TzState × List String
  | .toZ i tz => (toZonedTimeD env st i tz).2
  | .fromZ w tz => (fromZonedTimeD env st w tz).2
  | .fmt i pat tz => (formatInTimeZoneD env st i pat tz).2

/-- State transition and accumulated diagnostics of a sequence of converter
calls (a process history). -/
def runOps (env : TzEnv) (st : TzState) : List TzOp → TzState × List String
  | [] => (st, [])
  | op :: rest =>
    let (st', ws) := runOp env st op
    let (st'', ws') := runOps env st' rest
    (st'', ws ++ ws')

/-! ### Year dropdown

Modelled from the spec: the `year_dropdown` component is not under `src/`
(only its test suite is), and the spec's scope notes treat dropdown widgets as
presentation shell.  The logic its tests pin down: choosing a year closes the
options list, and the host `onChange` is invoked with the chosen year only
when it differs from the current year (both scroll and select modes route
through the same gate). -/

/-- Result of choosing a year in the dropdown: whether the options list is
left open, and the value passed to the host `onChange` (absent when no call is
made). -/
def yearDropdownSelect (currentYear chosen : Int) : Bool × Option Int :=
  (false, if chosen = currentYear then none else some chosen)

/-! ## Theorems -/

/-- A zone's offset at any instant is either its DST offset or its standard
offset. -/
theorem offsetAt_dst_or_std (z : ZoneRules) (i : Int) :
    offsetAt z i = z.dstOffset ∨ offsetAt z i = z.stdOffset := by
  unfold offsetAt; split <;> simp

/-- The empty identifier is not in the zone database. -/
theorem zoneOf_empty : zoneOf "" = none := by decide

/-- Claim C1, counterexample.  The round-trip law fails as stated: at a DST
fall-back transition `toZonedTime` collapses two distinct instants (here
2024-11-03T05:30Z and 2024-11-03T06:30Z under America/New_York) onto one wall
reading, so no inverse can recover both; the converter maps the later one back
to the earlier one. -/
theorem c1_roundtrip_counterexample :
    toZonedTime (mkTs 2024 11 3 5 30) (some "America/New_York") =
      toZonedTime (mkTs 2024 11 3 6 30) (some "America/New_York") ∧
    mkTs 2024 11 3 5 30 ≠ mkTs 2024 11 3 6 30 ∧
    fromZonedTime (toZonedTime (mkTs 2024 11 3 6 30) (some "America/New_York"))
      (some "America/New_York") ≠ mkTs 2024 11 3 6 30 := by
  decide

/-- Claim C1 (amended).  For every Instant `i` and every zone in the
database, `fromZonedTime (toZonedTime i tz) tz = i` holds whenever `i` is not
inside a DST fall-back ambiguity window — stated as: if the wall reading of
`i` is consistent with the DST offset then `i` itself lies on the DST offset.
The hypothesis is vacuously true for every instant of a fixed-offset zone and
for every DST instant of any zone; it excludes only the standard-time instants
inside the repeated hour after a fall-back transition. -/
theorem c1_roundtrip_amended (s : String) (z : ZoneRules) (i : Int)
    (hz : zoneOf s = some z)
    (h : offsetAt z (i + offsetAt z i - z.dstOffset) = z.dstOffset →
         offsetAt z i = z.dstOffset) :
    fromZonedTime (toZonedTime i (some s)) (some s) = i := by
  have hs : s ≠ "" := by
    intro he
    rw [he, zoneOf_empty] at hz
    exact Option.noConfusion hz
  simp only [toZonedTime, fromZonedTime, if_neg hs, hz]
  by_cases hc : offsetAt z (i + offsetAt z i - z.dstOffset) = z.dstOffset
  · rw [if_pos hc, h hc]; ring
  · rw [if_neg hc]
    have hstd : offsetAt z i = z.stdOffset := by
      rcases offsetAt_dst_or_std z i with hd | hd
      · exact absurd (by rw [hd]; simpa using hd) hc
      · exact hd
    rw [hstd]; ring

/-- Witness for `c1_roundtrip_amended` at Pacific/Kiritimati (fixed UTC+14)
and the instant 2024-06-15T12:00Z. -/
theorem c1_roundtrip_amended_witness :
    fromZonedTime (toZonedTime (mkTs 2024 6 15 12 0) (some "Pacific/Kiritimati"))
      (some "Pacific/Kiritimati") = mkTs 2024 6 15 12 0 :=
  c1_roundtrip_amended "Pacific/Kiritimati" kiritimatiRules (mkTs 2024 6 15 12 0)
    (by decide) (fun _ => by decide)

/-- Claim C2.  Under Pacific/Kiritimati (UTC+14) the instant
2025-12-25T10:00Z formats and displays as the zoned calendar day 2025-12-26
while its UTC calendar day is 2025-12-25; the cell for zoned day 26 is
highlighted and the UTC-day cell is not; and selecting zoned day 26 emits an
instant whose UTC reading is 2025-12-25T10:00Z (hour 10). -/
theorem c2_extreme_offset_day_mapping :
    formatInTimeZone (mkTs 2025 12 25 10 0) "yyyy-MM-dd"
      (some "Pacific/Kiritimati") = "2025-12-26" ∧
    civilFromDays (calendarDayOfZoned (mkTs 2025 12 25 10 0)
      (some "Pacific/Kiritimati")) = (2025, 12, 26) ∧
    civilFromDays (dayNumOf (mkTs 2025 12 25 10 0)) = (2025, 12, 25) ∧
    isDayHighlighted (some (mkTs 2025 12 25 10 0)) (some "Pacific/Kiritimati")
      (daysFromCivil 2025 12 26) = true ∧
    isDayHighlighted (some (mkTs 2025 12 25 10 0)) (some "Pacific/Kiritimati")
      (daysFromCivil 2025 12 25) = false ∧
    selectDayEmit (some (mkTs 2025 12 25 10 0)) (some "Pacific/Kiritimati")
      (daysFromCivil 2025 12 26) = mkTs 2025 12 25 10 0 ∧
    hourOf (mkTs 2025 12 25 10 0) = 10 := by
  decide

/-- A converter call that does not request zoning leaves the memo unchanged
and emits nothing. -/
theorem runOp_noTz (env : TzEnv) (st : TzState) (op : TzOp)
    (h : opHasTz op = false) : runOp env st op = (st, []) := by
  cases op <;>
    simp_all [runOp, opHasTz, toZonedTimeD, fromZonedTimeD, formatInTimeZoneD]

/-- With the dependency unavailable, a converter call that requests zoning
behaves as one probe of the dependency. -/
theorem runOp_probe (env : TzEnv) (st : TzState) (op : TzOp)
    (h : opHasTz op = true) (hav : env.available = false) :
    runOp env st op = probeWarn env st := by
  cases op <;>
    simp_all [runOp, opHasTz, toZonedTimeD, fromZonedTimeD, formatInTimeZoneD, hav]

/-- Once the missing dependency has been detected, no further diagnostics are
emitted for the rest of the process history. -/
theorem runOps_warned (env : TzEnv) (hav : env.available = false)
    (ops : List TzOp) : runOps env ⟨true⟩ ops = (⟨true⟩, []) := by
  induction ops with
  | nil => rfl
  | cons op rest ih =>
    have hop : runOp env ⟨true⟩ op = (⟨true⟩, []) := by
      by_cases h : opHasTz op = true
      · rw [runOp_probe env _ op h hav]
        simp [probeWarn, hav]
      · exact runOp_noTz env _ op (by simpa using h)
    simp [runOps, hop, ih]

/-- With the dependency unavailable, a fresh process emits the diagnostic
exactly once over any history containing a zoning request when the
development-mode flag is set, and never otherwise. -/
theorem runOps_unavailable (env : TzEnv) (hav : env.available = false)
    (ops : List TzOp) :
    (runOps env ⟨false⟩ ops).2 =
      (if env.devMode && ops.any opHasTz then [warnMsg] else []) := by
  induction ops with
  | nil => simp [runOps]
  | cons op rest ih =>
    by_cases h : opHasTz op = true
    · have hop : runOp env ⟨false⟩ op =
          (⟨true⟩, if env.devMode then [warnMsg] else []) := by
        rw [runOp_probe env _ op h hav]
        simp only [probeWarn, hav, Bool.false_eq_true, if_false, Bool.not_false,
          Bool.and_true]
        by_cases hd : env.devMode = true <;> simp [hd]
      simp [runOps, hop, runOps_warned env hav, h]
    · have hop := runOp_noTz env ⟨false⟩ op (by simpa using h)
      simp [runOps, hop, ih, h]

/-- Claim C3.  With the timezone dependency unavailable, `toZonedTime` and
`fromZonedTime` return their input instant unchanged for every timezone
argument, `formatInTimeZone` falls back to ambient-zone formatting of the
unzoned instant, and over any process history the diagnostic — whose text
contains the token "date-fns-tz" — is emitted exactly once when the
development-mode flag is set and a zoning request occurs, and never in
production mode. -/
theorem c3_degraded_mode (env : TzEnv) (st : TzState) (i w : Int) (pat : String)
    (tz : Option String) (ops : List TzOp) (hav : env.available = false) :
    (toZonedTimeD env st i tz).1 = i ∧
    (fromZonedTimeD env st w tz).1 = w ∧
    (formatInTimeZoneD env st i pat tz).1 = formatPattern pat i ∧
    (runOps env ⟨false⟩ ops).2 =
      (if env.devMode && ops.any opHasTz then [warnMsg] else []) ∧
    containsToken warnMsg "date-fns-tz" = true := by
  refine ⟨?_, ?_, ?_, runOps_unavailable env hav ops, by decide⟩ <;>
    simp [toZonedTimeD, fromZonedTimeD, formatInTimeZoneD, hav, probeWarn] <;>
    split <;> simp [probeWarn, hav]

/-- Witness for `c3_degraded_mode`: a development-mode process without the
dependency, probed by two zoning calls, emits the diagnostic once and the
conversions are identities. -/
theorem c3_degraded_mode_witness :
    (toZonedTimeD ⟨false, true⟩ ⟨false⟩ (mkTs 2024 6 15 12 0)
      (some "America/New_York")).1 = mkTs 2024 6 15 12 0 ∧
    (fromZonedTimeD ⟨false, true⟩ ⟨false⟩ (mkTs 2024 6 15 12 0)
      (some "America/New_York")).1 = mkTs 2024 6 15 12 0 ∧
    (formatInTimeZoneD ⟨false, true⟩ ⟨false⟩ (mkTs 2024 6 15 12 0) "yyyy-MM-dd"
        (some "America/New_York")).1 =
      formatPattern "yyyy-MM-dd" (mkTs 2024 6 15 12 0) ∧
    (runOps ⟨false, true⟩ ⟨false⟩
        [.toZ (mkTs 2024 6 15 12 0) (some "America/New_York"),
         .fromZ (mkTs 2024 6 15 12 0) (some "America/New_York")]).2 =
      (if (true : Bool) &&
          ([TzOp.toZ (mkTs 2024 6 15 12 0) (some "America/New_York"),
            TzOp.fromZ (mkTs 2024 6 15 12 0) (some "America/New_York")].any opHasTz)
        then [warnMsg] else []) ∧
    containsToken warnMsg "date-fns-tz" = true :=
  c3_degraded_mode ⟨false, true⟩ ⟨false⟩ (mkTs 2024 6 15 12 0)
    (mkTs 2024 6 15 12 0) "yyyy-MM-dd" (some "America/New_York")
    [.toZ (mkTs 2024 6 15 12 0) (some "America/New_York"),
     .fromZ (mkTs 2024 6 15 12 0) (some "America/New_York")] rfl

/-- Claim C4.  `formatInTimeZone` applies America/New_York's UTC-4 daylight
offset to 2024-07-15T12:00Z (giving "08:00") and its UTC-5 standard offset to
2024-01-15T12:00Z (giving "07:00") for the pattern `HH:mm`. -/
theorem c4_dst_boundary_format :
    formatInTimeZone (mkTs 2024 7 15 12 0) "HH:mm" (some "America/New_York") =
      "08:00" ∧
    formatInTimeZone (mkTs 2024 1 15 12 0) "HH:mm" (some "America/New_York") =
      "07:00" := by
  decide

/-- Claim C5.  For every Instant, `toZonedTime` and `fromZonedTime` with an
empty or absent timezone identifier return the input itself (the definition
returns the argument term unchanged, the embedding of reference equality). -/
theorem c5_identity_on_empty_zone (i : Int) :
    toZonedTime i (some "") = i ∧ toZonedTime i none = i ∧
    fromZonedTime i (some "") = i ∧ fromZonedTime i none = i :=
  ⟨rfl, rfl, rfl, rfl⟩

/-- Claim C6.  In range mode under America/New_York with
startDate = 2024-06-15T12:00Z and endDate = 2024-06-20T14:00Z, editing the
start time-of-day to 10:30 emits (2024-06-15T14:30Z, end unchanged) — 10:30
EDT converted from zoned to absolute — and editing the end time-of-day to
16:45 emits (start unchanged, 2024-06-20T20:45Z); in general an edit of one
endpoint passes the other endpoint through untouched. -/
theorem c6_range_time_edit_independence :
    editStartTime (some (mkTs 2024 6 15 12 0)) (some (mkTs 2024 6 20 14 0))
        (some "America/New_York") 10 30 =
      (some (mkTs 2024 6 15 14 30), some (mkTs 2024 6 20 14 0)) ∧
    editEndTime (some (mkTs 2024 6 15 12 0)) (some (mkTs 2024 6 20 14 0))
        (some "America/New_York") 16 45 =
      (some (mkTs 2024 6 15 12 0), some (mkTs 2024 6 20 20 45)) ∧
    (∀ (s e : Option Int) (tz : Option String) (h mi : Int),
      (editStartTime s e tz h mi).2 = e ∧ (editEndTime s e tz h mi).1 = s) :=
  ⟨by decide, by decide, fun s e tz h mi => ⟨rfl, rfl⟩⟩

/-- Claim C7.  In multiple-selection mode, toggling a zoned calendar day that
no current selection occupies adds it, and toggling it again removes exactly
the instants whose zoned calendar day matches, restoring the prior selection
(here: exact list equality, which implies set equality).  The hypotheses say
the clicked day is initially unselected and that the zone maps the clicked
day's midnight back to that day (no gap at midnight). -/
theorem c7_multiple_toggle_restores (sel : List Int) (tz : Option String)
    (D : Int)
    (h1 : ∀ i ∈ sel, calendarDayOfZoned i tz ≠ D)
    (h2 : calendarDayOfZoned (fromZonedTime (D * msPerDay) tz) tz = D) :
    toggleDay (toggleDay sel tz D) tz D = sel := by
  have hany : sel.any (fun i => decide (calendarDayOfZoned i tz = D)) = false := by
    simp only [List.any_eq_false, decide_eq_true_eq]
    exact h1
  have step1 : toggleDay sel tz D = sel ++ [fromZonedTime (D * msPerDay) tz] := by
    unfold toggleDay
    rw [hany]
    simp
  rw [step1]
  unfold toggleDay
  have hany2 : (sel ++ [fromZonedTime (D * msPerDay) tz]).any
      (fun i => decide (calendarDayOfZoned i tz = D)) = true := by
    simp [List.any_append, h2]
  rw [hany2]
  simp only [if_true]
  rw [List.filter_append]
  have hfsel : sel.filter (fun i => decide (calendarDayOfZoned i tz ≠ D)) = sel := by
    rw [List.filter_eq_self]
    intro a ha
    simpa using h1 a ha
  have hfx : ([fromZonedTime (D * msPerDay) tz]).filter
      (fun i => decide (calendarDayOfZoned i tz ≠ D)) = [] := by
    simp [List.filter, h2]
  rw [hfsel, hfx, List.append_nil]

/-- Witness for `c7_multiple_toggle_restores`: the multiple-selection test's
set under Pacific/Kiritimati (zoned days Dec 26 and Dec 27), toggling zoned
day 2025-12-28 on and off. -/
theorem c7_multiple_toggle_restores_witness :
    toggleDay (toggleDay [mkTs 2025 12 25 10 0, mkTs 2025 12 26 10 0]
        (some "Pacific/Kiritimati") (daysFromCivil 2025 12 28))
      (some "Pacific/Kiritimati") (daysFromCivil 2025 12 28) =
    [mkTs 2025 12 25 10 0, mkTs 2025 12 26 10 0] :=
  c7_multiple_toggle_restores _ _ _ (by decide) (by decide)

/-- Claim C8.  Conversion operations pass absent instants through unchanged:
a null endpoint stays null through a range-mode time edit in either position
while the other endpoint is converted independently, and the null-lifted
converters map `none` to `none`; concretely, the suite's only-start and
only-end scenarios under America/New_York. -/
theorem c8_null_passthrough :
    (∀ (e : Option Int) (tz : Option String) (h mi : Int),
        editStartTime none e tz h mi = (none, e)) ∧
    (∀ (s : Option Int) (tz : Option String) (h mi : Int),
        editEndTime s none tz h mi = (s, none)) ∧
    (∀ tz : Option String, toZonedOpt none tz = none ∧ fromZonedOpt none tz = none) ∧
    editStartTime (some (mkTs 2024 6 15 12 0)) none (some "America/New_York")
        10 30 = (some (mkTs 2024 6 15 14 30), none) ∧
    editEndTime none (some (mkTs 2024 6 20 14 0)) (some "America/New_York")
        16 45 = (none, some (mkTs 2024 6 20 20 45)) :=
  ⟨fun e tz h mi => rfl, fun s tz h mi => rfl, fun tz => ⟨rfl, rfl⟩,
    by decide, by decide⟩

/-- Claim C9.  Range-mode emission keeps the pair positional and never
reorders: editing the start time of (2024-06-15T12:00Z, 2024-06-15T13:00Z)
under America/New_York to 23:30 emits a pair whose start (2024-06-16T03:30Z)
exceeds its end, still in (start, end) order; in general each edit leaves the
two positions in place; and the ordering invariant is applied by the initial
display normalization, which would swap this out-of-order pair. -/
theorem c9_no_reordering_on_emission :
    editStartTime (some (mkTs 2024 6 15 12 0)) (some (mkTs 2024 6 15 13 0))
        (some "America/New_York") 23 30 =
      (some (mkTs 2024 6 16 3 30), some (mkTs 2024 6 15 13 0)) ∧
    mkTs 2024 6 15 13 0 < mkTs 2024 6 16 3 30 ∧
    (∀ (s e : Int) (tz : Option String) (h mi : Int),
      (editStartTime (some s) (some e) tz h mi).2 = some e ∧
      (editEndTime (some s) (some e) tz h mi).1 = some s) ∧
    normalizeDisplayRange (some (mkTs 2024 6 16 3 30)) (some (mkTs 2024 6 15 13 0)) =
      (some (mkTs 2024 6 15 13 0), some (mkTs 2024 6 16 3 30)) :=
  ⟨by decide, by decide, fun s e tz h mi => ⟨rfl, rfl⟩, by decide⟩

/-- Claim C10.  Choosing the year that is already current in the year
dropdown makes no host `onChange` call, while choosing a different year calls
back with exactly the new year value (and closes the options list). -/
theorem c10_year_dropdown_same_year (c y : Int) (h : y ≠ c) :
    (yearDropdownSelect c c).2 = none ∧
    (yearDropdownSelect c y).2 = some y ∧
    (yearDropdownSelect c y).1 = false :=
  ⟨by simp [yearDropdownSelect], by simp [yearDropdownSelect, h], rfl⟩

/-- Witness for `c10_year_dropdown_same_year` at the test suite's years 2015
(current) and 2014 (different). -/
theorem c10_year_dropdown_same_year_witness :
    (yearDropdownSelect 2015 2015).2 = none ∧
    (yearDropdownSelect 2015 2014).2 = some 2014 ∧
    (yearDropdownSelect 2015 2014).1 = false :=
  c10_year_dropdown_same_year 2015 2014 (by decide)

end DatePickerTZ
